import Mathlib

/-!
Shallow embedding of the AVR_ILI9341 TFT driver (files AVR_ILI9341.cpp,
utility/TFT_SPI.cpp, utility/TFT_GFX.cpp), at the level of the byte/event
stream the driver puts on the SPI bus.

Machine-integer conventions: the library explicitly targets AVR boards
(Leonardo, Mega 2560), where `int` is 16 bits wide.  `uint16_t` arithmetic
therefore wraps modulo 2^16 and `uint8_t` parameters truncate modulo 2^8.
All C integers are modelled as `Nat` with explicit `% 65536` / `% 256`
at the points where the C code converts or wraps.
-/

/-- One observable event on the SPI bus:
`start` = SPI_START (beginTransaction + chip-select assert),
`stop` = SPI_END (chip-select deassert + endTransaction),
`cmd b` = one byte transferred with the D/C line low (a command byte),
`dat b` = one byte transferred with the D/C line high (a data byte). -/
inductive Ev : Type
  | start : Ev
  | stop : Ev
  | cmd : Nat → Ev
  | dat : Nat → Ev
  deriving DecidableEq, Repr

/-- Modelled from the spec: the panel width constant `TFT_WIDTH` lives in the
repository header `AVR_ILI9341.h`, which is not among the source files; the
spec fixes a 240x320 panel. -/
def TFT_WIDTH : Nat := 240

/-- Modelled from the spec: the panel height constant `TFT_HEIGHT` from the
missing `AVR_ILI9341.h` header; the spec fixes a 240x320 panel and the
source comment in `setScrollMargins` states that the margins must sum to 320. -/
def TFT_HEIGHT : Nat := 320

/-- Modelled from the spec: the column-address-set opcode (`ILI9341_CASET`)
from the missing `AVR_ILI9341.h` header. -/
def ILI9341_CASET : Nat := 0x2A

/-- Modelled from the spec: the row-address-set opcode (`ILI9341_PASET`)
from the missing `AVR_ILI9341.h` header. -/
def ILI9341_PASET : Nat := 0x2B

/-- Modelled from the spec: the memory-write opcode (`ILI9341_RAMWR`)
from the missing `AVR_ILI9341.h` header. -/
def ILI9341_RAMWR : Nat := 0x2C

/-- Modelled from the spec: the memory-access-control opcode (`ILI9341_MADCTL`)
from the missing `AVR_ILI9341.h` header. -/
def ILI9341_MADCTL : Nat := 0x36

/-- Modelled from the spec: the vertical-scroll-definition opcode
(`ILI9341_VSCRDEF`) from the missing `AVR_ILI9341.h` header. -/
def ILI9341_VSCRDEF : Nat := 0x33

/-- Modelled from the spec: the vertical-scroll-start-address opcode
(`ILI9341_VSCRSADD`) from the missing `AVR_ILI9341.h` header. -/
def ILI9341_VSCRSADD : Nat := 0x37

/-- MADCTL_MY bit (source: AVR_ILI9341.cpp revision, `#define MADCTL_MY 0x80`). -/
def MADCTL_MY : Nat := 0x80

/-- MADCTL_MX bit (`#define MADCTL_MX 0x40`). -/
def MADCTL_MX : Nat := 0x40

/-- MADCTL_MV bit (`#define MADCTL_MV 0x20`). -/
def MADCTL_MV : Nat := 0x20

/-- MADCTL_BGR bit (`#define MADCTL_BGR 0x08`). -/
def MADCTL_BGR : Nat := 0x08

/-- Unsigned 16-bit subtraction `a - b` with wrap-around, for `a b < 65536`. -/
def sub16 (a b : Nat) : Nat := (a + 65536 - b) % 65536

/-- TFT_SPI::writeCommand: pulls D/C low and transfers one byte
(`writeSPI` takes a `uint8_t`, hence the modulus). -/
def writeCommand (c : Nat) : List Ev := [Ev.cmd (c % 256)]

/-- Loop body of TFT_SPI::writeData16: `while (num > 0) { writeSPI(color >> 8);
writeSPI(color); num--; }` with `col` the 16-bit colour value. -/
def wd16Loop (col : Nat) : Nat → List Ev
  | 0 => []
  | n + 1 => Ev.dat (col / 256 % 256) :: Ev.dat (col % 256) :: wd16Loop col n

/-- TFT_SPI::writeData16(uint16_t color, uint32_t num): pulls D/C high and
emits `num` repetitions of the colour, high byte first. -/
def writeData16 (color num : Nat) : List Ev :=
  wd16Loop (color % 65536) (num % 4294967296)

/-- TFT_SPI::sendCommand(cmd, dataBytes, numBytes): one command byte followed
by the given argument bytes as data (each transferred as a `uint8_t`). -/
def sendCommand (c : Nat) (dataBytes : List Nat) : List Ev :=
  Ev.cmd (c % 256) :: dataBytes.map (fun b => Ev.dat (b % 256))

/-- AVR_ILI9341::setAddressWindow(x1, y1, x2, y2): opens the SPI transaction
(SPI_START), issues column-address-set with x1, x2, row-address-set with
y1, y2 (each 16-bit value via `writeData16(v, 1)`), then the memory-write
command.  The source deliberately does not call SPI_END here (its doc-note
says the caller should close the bus). -/
def setAddressWindow (x1 y1 x2 y2 : Nat) : List Ev :=
  [Ev.start] ++
  writeCommand ILI9341_CASET ++ writeData16 x1 1 ++ writeData16 x2 1 ++
  writeCommand ILI9341_PASET ++ writeData16 y1 1 ++ writeData16 y2 1 ++
  writeCommand ILI9341_RAMWR

/-- Result of AVR_ILI9341::setRotation: the stored rotation index, the stored
`_width` and `_height`, and the emitted bus events. -/
structure RotResult where
  rotation : Nat
  width : Nat
  height : Nat
  trace : List Ev
  deriving DecidableEq, Repr

/-- AVR_ILI9341::setRotation(uint8_t m): `rotation = m % 4`, then a switch
selecting the MADCTL byte and the `_width`/`_height` pair, then
SPI_START; sendCommand(ILI9341_MADCTL, &m, 1); SPI_END. -/
def setRotation (m : Nat) : RotResult :=
  let r := m % 256 % 4
  let madctl : Nat :=
    match r with
    | 0 => MADCTL_MX ||| MADCTL_BGR
    | 1 => MADCTL_MV ||| MADCTL_BGR
    | 2 => MADCTL_MY ||| MADCTL_BGR
    | _ => MADCTL_MX ||| MADCTL_MY ||| MADCTL_MV ||| MADCTL_BGR
  let wh : Nat × Nat :=
    match r with
    | 0 => (TFT_WIDTH, TFT_HEIGHT)
    | 1 => (TFT_HEIGHT, TFT_WIDTH)
    | 2 => (TFT_WIDTH, TFT_HEIGHT)
    | _ => (TFT_HEIGHT, TFT_WIDTH)
  ⟨r, wh.1, wh.2,
    [Ev.start] ++ sendCommand ILI9341_MADCTL [madctl] ++ [Ev.stop]⟩

/-- AVR_ILI9341::scrollTo(uint16_t y): one vertical-scroll-start-address
command with y encoded big-endian, inside a SPI_START/SPI_END bracket. -/
def scrollTo (y : Nat) : List Ev :=
  let yy := y % 65536
  [Ev.start] ++ sendCommand ILI9341_VSCRSADD [yy / 256, yy % 256] ++ [Ev.stop]

/-- AVR_ILI9341::setScrollMargins(uint16_t top, uint16_t bottom): if
`top + bottom <= TFT_HEIGHT` (16-bit sum, wrapping on AVR) it sends the
vertical-scroll-definition command with top, middle = TFT_HEIGHT - (top+bottom),
bottom, each big-endian, inside a SPI_START/SPI_END bracket; otherwise it
does nothing. -/
def setScrollMargins (top bottom : Nat) : List Ev :=
  let t := top % 65536
  let b := bottom % 65536
  let s := (t + b) % 65536
  if s ≤ TFT_HEIGHT then
    let middle := sub16 TFT_HEIGHT s
    [Ev.start] ++
    sendCommand ILI9341_VSCRDEF
      [t / 256, t % 256, middle / 256, middle % 256, b / 256, b % 256] ++
    [Ev.stop]
  else []

/-- Round-to-nearest integer square root: `round(sqrt n)` for a natural `n`.
For the magnitudes this driver produces (n < 65536, so sqrt n <= 256) the C
expression `(uint16_t)round(sqrt((float)n))` computes exactly this value:
n is exactly representable in single precision and sqrt n is never within
float rounding error of a half-integer. -/
def roundSqrt (n : Nat) : Nat := (Nat.sqrt (4 * n) + 1) / 2

/-- TFT_GFX::circleAlgo(uint16_t y, uint16_t radius):
`round(sqrt((float)(radius*radius - y*y)))`, where the squares and their
difference are computed in wrapping 16-bit arithmetic. -/
def circleAlgo (y radius : Nat) : Nat :=
  roundSqrt (sub16 (radius * radius % 65536) (y * y % 65536))

/-- The two circle hemispheres distinguished by TFT_GFX's `segment` enum. -/
inductive Seg : Type
  | Top : Seg
  | Bottom : Seg
  deriving DecidableEq, Repr

/-- TFT_GFX's arc loop shape, shared by the four
`for (xPoint = 0; xPoint <= yPoint && ...; xPoint++) { yPoint = circleAlgo(xPoint, cr); plot(...); }`
loops of drawShape (`yPoint` starts at 0; `cr` is the radius handed to
circleAlgo; the loop-invariant `radius > 0` / `strokeWidth > 0` conjuncts of
the C guard are hoisted to the call sites).  `fuel` is an upper bound on the
iteration count: since `circleAlgo _ cr <= cr`, the guard `xPoint <= yPoint`
fails after at most `cr + 2` iterations, and every call site passes fuel
`cr + 2`, so the fuel never runs out before the guard fails. -/
def arcLoop (plot : Nat → Nat → List Ev) (cr : Nat) : Nat → Nat → Nat → List Ev
  | 0, _, _ => []
  | fuel + 1, xPoint, yPoint =>
    if xPoint ≤ yPoint then
      let yNew := circleAlgo xPoint cr
      plot xPoint yNew ++ arcLoop plot cr fuel (xPoint + 1) yNew
    else []

/-- TFT_GFX::setScreenData(uint16_t xPos, uint16_t yPos, uint16_t _xFillPx,
uint8_t _depth, uint16_t _fillcolor): programs the address window
`(xPos, yPos, _xFillPx + xPos, _depth + yPos)` and writes
`(_xFillPx + 1) * _depth` pixels of the fill colour.  The `_depth`
parameter is a `uint8_t`, so the caller's row count is truncated mod 256;
the additions and the pixel-count product wrap in 16-bit arithmetic. -/
def setScreenData (xPos yPos xFillPx depth fillcolor : Nat) : List Ev :=
  let x := xPos % 65536
  let y := yPos % 65536
  let f := xFillPx % 65536
  let d := depth % 256
  setAddressWindow x y ((f + x) % 65536) ((d + y) % 65536) ++
  writeData16 fillcolor ((f + 1) % 65536 * d % 65536)

/-- TFT_GFX::fillScreen(uint16_t color) in display state `(_width, _height)`:
`setScreenData(0, 0, _width, _height, color)`. -/
def fillScreen (width height color : Nat) : List Ev :=
  setScreenData 0 0 width height color

/-- The `isDrawRect` flag of TFT_GFX::drawShape as the pure function of the
request and the display extents that the code computes: starts `true`, cleared
when `length > _width || breadth > _height` or `length == 0 || breadth == 0`.
Arguments are the 16-bit values in play inside drawShape. -/
def isDrawRectF (w h L B : Nat) : Bool :=
  if w < L ∨ h < B then false
  else if L = 0 ∨ B = 0 then false
  else true

/-- The `isDrawCircle` flag of TFT_GFX::drawShape: starts `true`, cleared by
the two rectangle checks and by the circle checks (`x0 > _width`,
`y0 > _height`, `radius == 0`, `diameter > length || diameter > breadth`,
`radius > xAxis || radius > yAxis`), where `diameter = 2*radius` and
`x0/y0 = diameter + 2*strokeWidth + xAxis/yAxis` in wrapping 16-bit
arithmetic. -/
def isDrawCircleF (w h L B r s x y : Nat) : Bool :=
  let diameter := 2 * r % 65536
  let x0 := (diameter + 2 * s + x) % 65536
  let y0 := (diameter + 2 * s + y) % 65536
  if w < L ∨ h < B then false
  else if L = 0 ∨ B = 0 then false
  else if w < x0 then false
  else if h < y0 then false
  else if r = 0 then false
  else if L < diameter ∨ B < diameter then false
  else if x < r ∨ y < r then false
  else true

/-- The `isDrawLine` flag of TFT_GFX::drawShape: initialised as
`isDrawCircle && isDrawRect && false` (verbatim from the source), then cleared
when `length == 0 && breadth == 0`, when `length + xAxis > _width`, or when
`breadth + yAxis > _height` (wrapping 16-bit sums). -/
def isDrawLineF (w h L B r s x y : Nat) : Bool :=
  let l0 := isDrawCircleF w h L B r s x y && isDrawRectF w h L B && false
  let l1 := if L = 0 ∧ B = 0 then false else l0
  let l2 := if w < (L + x) % 65536 then false else l1
  if h < (B + y) % 65536 then false else l2

/-- The `isDrawPixel` flag of TFT_GFX::drawShape: initialised as
`isDrawLine && false` (verbatim from the source), then cleared when
`xAxis > _width || yAxis > _height`. -/
def isDrawPixelF (w h L B r s x y : Nat) : Bool :=
  let p0 := isDrawLineF w h L B r s x y && false
  if w < x ∨ h < y then false else p0

/-- TFT_GFX::plotOctets: plots the two horizontal runs for one computed arc
point, mirrored per hemisphere; each run is a `setScreenData` call with
depth 1.  All coordinate arithmetic wraps in 16 bits. -/
def plotOctets (hemisphere : Seg) (xCenter yCenter xOutline yOutline len color : Nat) :
    List Ev :=
  match hemisphere with
  | Seg.Top =>
    setScreenData (sub16 xCenter yOutline) (sub16 yCenter xOutline)
      ((2 * yOutline + len) % 65536) 1 color ++
    setScreenData (sub16 xCenter xOutline) (sub16 yCenter yOutline)
      ((2 * xOutline + len) % 65536) 1 color
  | Seg.Bottom =>
    setScreenData (sub16 xCenter xOutline) ((yCenter + yOutline) % 65536)
      ((2 * xOutline + len) % 65536) 1 color ++
    setScreenData (sub16 xCenter yOutline) ((yCenter + xOutline) % 65536)
      ((2 * yOutline + len) % 65536) 1 color

/-- TFT_GFX::drawShape(uint16_t xAxis, uint16_t yAxis, uint16_t length,
uint16_t breadth, uint16_t radius, uint8_t strokeWidth, uint16_t strokeColor,
uint16_t fillColor) in display state `(_width, _height)`: validates the
request (the four `isDraw*` flags above), zeroes `radius`/`diameter` when no
circle can be drawn, sets the fill configuration `(xFill, xFillCounts)` for
the selected kind (later branches overwrite earlier ones, as the sequential
`if` statements in the source do), then emits: top stroke arc rows, top fill
arc rows, the mid section (fill run plus stroke runs when `strokeWidth > 0`),
bottom stroke arc rows, bottom fill arc rows. -/
def drawShape (width height xAxis yAxis length breadth radius strokeWidth
    strokeColor fillColor : Nat) : List Ev :=
  let w := width % 65536
  let h := height % 65536
  let x := xAxis % 65536
  let y := yAxis % 65536
  let L := length % 65536
  let B := breadth % 65536
  let r0 := radius % 65536
  let s := strokeWidth % 256
  let isDrawRect := isDrawRectF w h L B
  let isDrawCircle := isDrawCircleF w h L B r0 s x y
  let isDrawLine := isDrawLineF w h L B r0 s x y
  let isDrawPixel := isDrawPixelF w h L B r0 s x y
  let r := if isDrawCircle then r0 else 0
  let diameter := if isDrawCircle then 2 * r0 % 65536 else 0
  let roundRectLength := if isDrawRect then sub16 L diameter else L
  let roundedRectBreadth := if isDrawRect then sub16 B diameter else B
  let xFill :=
    if isDrawPixel then 1
    else if isDrawLine then (if B = 0 then L else 1)
    else if isDrawRect then L
    else 0
  let xFillCounts :=
    if isDrawPixel then 1
    else if isDrawLine then (if B = 0 then 1 else B)
    else if isDrawRect then roundedRectBreadth
    else 0
  let xCenter := (x + r) % 65536
  let yCenter := (y + r) % 65536
  let topStroke :=
    if 0 < r ∧ 0 < s then
      arcLoop
        (fun xp yp => plotOctets Seg.Top xCenter yCenter xp yp roundRectLength strokeColor)
        ((r + s) % 65536) (r + s + 2) 0 0
    else []
  let topFill :=
    if 0 < r then
      arcLoop
        (fun xp yp => plotOctets Seg.Top xCenter yCenter xp yp roundRectLength fillColor)
        r (r + 2) 0 0
    else []
  let mid :=
    if isDrawRect || isDrawLine || isDrawPixel then
      setScreenData x ((y + r) % 65536) xFill xFillCounts fillColor ++
      (if 0 < s then
        setScreenData (sub16 (sub16 x s) 1) ((y + r) % 65536) s xFillCounts strokeColor ++
        setScreenData ((x + L + 1) % 65536) ((y + r) % 65536) s xFillCounts strokeColor ++
        (if !isDrawCircle then
          let startPos := sub16 ((x + r) % 65536) s
          let strokeLen := (L + s + s) % 65536
          setScreenData startPos y strokeLen s strokeColor ++
          setScreenData (sub16 startPos 1) ((y + B) % 65536)
            ((strokeLen + 1) % 65536) s strokeColor
        else [])
      else [])
    else []
  let bottomStroke :=
    if 0 < r ∧ 0 < s then
      arcLoop
        (fun xp yp => plotOctets Seg.Bottom xCenter ((yCenter + xFillCounts) % 65536)
          xp yp roundRectLength strokeColor)
        ((r + s) % 65536) (r + s + 2) 0 0
    else []
  let bottomFill :=
    if 0 < r then
      arcLoop
        (fun xp yp => plotOctets Seg.Bottom xCenter ((yCenter + xFillCounts) % 65536)
          xp yp roundRectLength fillColor)
        r (r + 2) 0 0
    else []
  topStroke ++ topFill ++ mid ++ bottomStroke ++ bottomFill

/-- Predicate picking out SPI_START events, used to count transaction opens. -/
def isStart : Ev → Bool
  | Ev.start => true
  | _ => false

/-- Predicate picking out SPI_END events, used to count transaction closes. -/
def isStop : Ev → Bool
  | Ev.stop => true
  | _ => false

/-! Helper lemmas about the write loop and the validity flags. -/

lemma wd16Loop_length (col : Nat) : ∀ n, (wd16Loop col n).length = 2 * n := by
  intro n
  induction n with
  | zero => simp [wd16Loop]
  | succ k ih => simp [wd16Loop, ih]; omega

lemma writeData16_length (c n : Nat) :
    (writeData16 c n).length = 2 * (n % 4294967296) := by
  simp [writeData16, wd16Loop_length]

lemma setAddressWindow_length (a b c d : Nat) :
    (setAddressWindow a b c d).length = 12 := by
  simp [setAddressWindow, writeCommand, writeData16, wd16Loop]

lemma wd16Loop_eq_flatten_replicate (col : Nat) :
    ∀ n, wd16Loop col n =
      (List.replicate n [Ev.dat (col / 256 % 256), Ev.dat (col % 256)]).flatten := by
  intro n
  induction n with
  | zero => simp [wd16Loop]
  | succ k ih => simp [wd16Loop, List.replicate_succ, ih]

lemma wd16Loop_countP_isStart (col : Nat) :
    ∀ n, (wd16Loop col n).countP isStart = 0 := by
  intro n
  induction n with
  | zero => simp [wd16Loop]
  | succ k ih => simp [wd16Loop, List.countP_cons, ih, isStart]

lemma wd16Loop_countP_isStop (col : Nat) :
    ∀ n, (wd16Loop col n).countP isStop = 0 := by
  intro n
  induction n with
  | zero => simp [wd16Loop]
  | succ k ih => simp [wd16Loop, List.countP_cons, ih, isStop]

lemma isDrawLineF_false (w h L B r s x y : Nat) :
    isDrawLineF w h L B r s x y = false := by
  simp [isDrawLineF]

lemma isDrawPixelF_false (w h L B r s x y : Nat) :
    isDrawPixelF w h L B r s x y = false := by
  simp [isDrawPixelF]

lemma isDrawCircleF_false_of_rect (w h L B r s x y : Nat)
    (hR : isDrawRectF w h L B = false) :
    isDrawCircleF w h L B r s x y = false := by
  by_cases h1 : w < L ∨ h < B
  · simp [isDrawCircleF, h1]
  · by_cases h2 : L = 0 ∨ B = 0
    · simp [isDrawCircleF, h1, h2]
    · simp [isDrawRectF, h1, h2] at hR

lemma drawShape_eq_nil {w h x y L B r s sc fc : Nat}
    (hR : isDrawRectF (w % 65536) (h % 65536) (L % 65536) (B % 65536) = false) :
    drawShape w h x y L B r s sc fc = [] := by
  have hC := isDrawCircleF_false_of_rect (w % 65536) (h % 65536) (L % 65536)
    (B % 65536) (r % 65536) (s % 256) (x % 65536) (y % 65536) hR
  simp [drawShape, hR, hC, isDrawLineF_false, isDrawPixelF_false]

lemma c3_eval (sc : Nat) :
    drawShape 240 320 10 10 50 50 0 0 sc 63488 =
      setAddressWindow 10 10 60 60 ++ writeData16 63488 2550 := by
  simp [drawShape, isDrawRectF, isDrawCircleF, isDrawLineF, isDrawPixelF,
    setScreenData, sub16]

/-- C1: setAddressWindow(x1,y1,x2,y2) followed by writeData16(c,n), n > 0,
emits, in order: SPI_START, the column-address-set command byte, x1 hi/lo and
x2 hi/lo as data, the row-address-set command byte, y1 hi/lo and y2 hi/lo as
data, the memory-write command byte with no data bytes of its own, and then
exactly n pairs of colour bytes, high byte first. -/
theorem c1_address_window_then_color_run (x1 y1 x2 y2 c n : Nat)
    (hx1 : x1 < 65536) (hy1 : y1 < 65536) (hx2 : x2 < 65536) (hy2 : y2 < 65536)
    (hc : c < 65536) (_hn : 0 < n) (hn32 : n < 4294967296) :
    setAddressWindow x1 y1 x2 y2 ++ writeData16 c n =
      [Ev.start, Ev.cmd ILI9341_CASET,
       Ev.dat (x1 / 256), Ev.dat (x1 % 256), Ev.dat (x2 / 256), Ev.dat (x2 % 256),
       Ev.cmd ILI9341_PASET,
       Ev.dat (y1 / 256), Ev.dat (y1 % 256), Ev.dat (y2 / 256), Ev.dat (y2 % 256),
       Ev.cmd ILI9341_RAMWR] ++
      (List.replicate n [Ev.dat (c / 256), Ev.dat (c % 256)]).flatten := by
  have e1 : x1 / 256 % 256 = x1 / 256 := Nat.mod_eq_of_lt (by omega)
  have e2 : x2 / 256 % 256 = x2 / 256 := Nat.mod_eq_of_lt (by omega)
  have e3 : y1 / 256 % 256 = y1 / 256 := Nat.mod_eq_of_lt (by omega)
  have e4 : y2 / 256 % 256 = y2 / 256 := Nat.mod_eq_of_lt (by omega)
  have e5 : c / 256 % 256 = c / 256 := Nat.mod_eq_of_lt (by omega)
  simp [setAddressWindow, writeCommand, writeData16, wd16Loop_eq_flatten_replicate,
    Nat.mod_eq_of_lt hx1, Nat.mod_eq_of_lt hy1, Nat.mod_eq_of_lt hx2,
    Nat.mod_eq_of_lt hy2, Nat.mod_eq_of_lt hc, Nat.mod_eq_of_lt hn32,
    e1, e2, e3, e4, e5, ILI9341_CASET, ILI9341_PASET, ILI9341_RAMWR]

/-- Witness for C1 at the window (1,2,3,4), colour 0xF800, pixel count 5. -/
theorem c1_address_window_then_color_run_witness :
    setAddressWindow 1 2 3 4 ++ writeData16 63488 5 =
      [Ev.start, Ev.cmd ILI9341_CASET, Ev.dat 0, Ev.dat 1, Ev.dat 0, Ev.dat 3,
       Ev.cmd ILI9341_PASET, Ev.dat 0, Ev.dat 2, Ev.dat 0, Ev.dat 4,
       Ev.cmd ILI9341_RAMWR] ++
      (List.replicate 5 [Ev.dat 248, Ev.dat 0]).flatten :=
  c1_address_window_then_color_run 1 2 3 4 63488 5 (by norm_num) (by norm_num)
    (by norm_num) (by norm_num) (by norm_num) (by norm_num) (by norm_num)

/-- C2: setRotation(m) stores m mod 4 as the rotation and sets the stored
width/height exactly per the rotation table: rotations 0 and 2 give
(panel width, panel height), rotations 1 and 3 the swapped pair; every input
is accepted and no other dimension pair is ever produced. -/
theorem c2_setRotation_dims (m : Nat) :
    (setRotation m).rotation = m % 4 ∧
    ((setRotation m).width, (setRotation m).height) =
      (if m % 4 = 0 ∨ m % 4 = 2 then (TFT_WIDTH, TFT_HEIGHT)
       else (TFT_HEIGHT, TFT_WIDTH)) := by
  have hm : m % 256 % 4 = m % 4 := Nat.mod_mod_of_dvd m (by norm_num)
  rcases (by omega : m % 4 = 0 ∨ m % 4 = 1 ∨ m % 4 = 2 ∨ m % 4 = 3) with h | h | h | h <;>
    simp [setRotation, hm, h]

/-- C3 counterexample: on a 240x320 display, drawShape at origin (10,10) with
length 50, breadth 50, radius 0, strokeWidth 0 and fill colour 0xF800 emits
the address-window program (10,10,60,60) followed by a colour run of
51*50 = 2550 pixels — not the 51*51 = 2601 pixels the claim states. -/
theorem c3_counterexample :
    drawShape 240 320 10 10 50 50 0 0 0 63488 =
      setAddressWindow 10 10 60 60 ++ writeData16 63488 (51 * 50) ∧
    drawShape 240 320 10 10 50 50 0 0 0 63488 ≠
      setAddressWindow 10 10 60 60 ++ writeData16 63488 (51 * 51) := by
  refine ⟨c3_eval 0, fun hEq => ?_⟩
  rw [c3_eval 0] at hEq
  have hLen := congrArg List.length hEq
  simp [List.length_append, setAddressWindow_length, writeData16_length] at hLen

/-- C3 amended: the scenario emits exactly one address-window program with
corners (10,10,60,60) and exactly one colour run of 51*50 pixels of 0xF800
(the window's last row is left unwritten), for any stroke colour. -/
theorem c3_amended (sc : Nat) :
    drawShape 240 320 10 10 50 50 0 0 sc 63488 =
      setAddressWindow 10 10 60 60 ++ writeData16 63488 (51 * 50) :=
  c3_eval sc

/-- C4 counterexample: fillScreen(0) on a 240x320 display emits the window
(0,0,240,64) followed by a run of 241*64 = 15424 pixels; its trace length
shows the run is not the claimed width*height = 76800 pixels. -/
theorem c4_counterexample :
    fillScreen 240 320 0 = setAddressWindow 0 0 240 64 ++ writeData16 0 (241 * 64) ∧
    (fillScreen 240 320 0).length ≠ 12 + 2 * (240 * 320) := by
  constructor
  · simp [fillScreen, setScreenData]
  · have h : fillScreen 240 320 0 =
        setAddressWindow 0 0 240 64 ++ writeData16 0 (241 * 64) := by
      simp [fillScreen, setScreenData]
    rw [h]
    simp [List.length_append, setAddressWindow_length, writeData16_length]

/-- C4 amended: for every colour, fillScreen emits exactly the event sequence
of drawShape over the full current extents (origin (0,0), length = width,
breadth = height) with radius 0 and strokeWidth 0, for any stroke colour —
one address-window program with corners (0,0,width,height mod 256) followed
by one colour run of (width+1)*(height mod 256) pixels, which covers the
whole display for no extents. -/
theorem c4_amended (w h c sc : Nat) (hw1 : 0 < w) (hw2 : w < 65536)
    (hh1 : 0 < h) (hh2 : h < 65536) :
    fillScreen w h c = drawShape w h 0 0 w h 0 0 sc c := by
  have hwne : w ≠ 0 := hw1.ne'
  have hhne : h ≠ 0 := hh1.ne'
  simp [fillScreen, drawShape, setScreenData, isDrawRectF, isDrawCircleF,
    isDrawLineF_false, isDrawPixelF_false, sub16,
    Nat.mod_eq_of_lt hw2, Nat.mod_eq_of_lt hh2, hwne, hhne]

/-- Witness for C4 amended at a 240x320 display with colour 3. -/
theorem c4_amended_witness :
    fillScreen 240 320 3 = drawShape 240 320 0 0 240 320 0 0 9 3 :=
  c4_amended 240 320 3 9 (by norm_num) (by norm_num) (by norm_num) (by norm_num)

/-- C5: a valid horizontal-line request (length 50, breadth 0, origin (10,10)
on a 240x320 display) selects no line — the isDrawLine flag is computed as
`isDrawCircle && isDrawRect && false` and is constantly false — and the draw
emits nothing instead of the claimed 1-pixel-thick run. -/
theorem c5_line_never_drawn :
    isDrawLineF 240 320 50 0 0 0 10 10 = false ∧
    drawShape 240 320 10 10 50 0 0 0 0 7 = [] :=
  ⟨isDrawLineF_false 240 320 50 0 0 0 10 10, drawShape_eq_nil (by decide)⟩

/-- C6: shape-kind inference is the pure function of
(length, breadth, radius, strokeWidth, origin, display extents) given by the
isDrawRectF/isDrawLineF/isDrawPixelF flags; at most one of the three shape
flags is set (so exactly one of rectangle/line/pixel/none is selected), and
when none is selected drawShape emits no events at all. -/
theorem c6_kind_inference (w h x y L B r s sc fc : Nat) :
    (isDrawRectF (w % 65536) (h % 65536) (L % 65536) (B % 65536) &&
     isDrawLineF (w % 65536) (h % 65536) (L % 65536) (B % 65536) (r % 65536) (s % 256)
       (x % 65536) (y % 65536)) = false ∧
    (isDrawRectF (w % 65536) (h % 65536) (L % 65536) (B % 65536) &&
     isDrawPixelF (w % 65536) (h % 65536) (L % 65536) (B % 65536) (r % 65536) (s % 256)
       (x % 65536) (y % 65536)) = false ∧
    (isDrawLineF (w % 65536) (h % 65536) (L % 65536) (B % 65536) (r % 65536) (s % 256)
       (x % 65536) (y % 65536) &&
     isDrawPixelF (w % 65536) (h % 65536) (L % 65536) (B % 65536) (r % 65536) (s % 256)
       (x % 65536) (y % 65536)) = false ∧
    ((isDrawRectF (w % 65536) (h % 65536) (L % 65536) (B % 65536) = false ∧
      isDrawLineF (w % 65536) (h % 65536) (L % 65536) (B % 65536) (r % 65536) (s % 256)
        (x % 65536) (y % 65536) = false ∧
      isDrawPixelF (w % 65536) (h % 65536) (L % 65536) (B % 65536) (r % 65536) (s % 256)
        (x % 65536) (y % 65536) = false) →
      drawShape w h x y L B r s sc fc = []) := by
  refine ⟨by simp [isDrawLineF_false], by simp [isDrawPixelF_false],
    by simp [isDrawPixelF_false], ?_⟩
  rintro ⟨hR, -, -⟩
  exact drawShape_eq_nil hR

/-- Witness for C6 at a request whose kind is none (length 0, breadth 5). -/
theorem c6_kind_inference_witness :
    drawShape 240 320 3 4 0 5 2 3 11 12 = [] :=
  (c6_kind_inference 240 320 3 4 0 5 2 3 11 12).2.2.2 ⟨by decide, by decide, by decide⟩

/-- C7: every drawShape request with length 0 is dropped entirely and
silently — the emitted event trace is empty (no address window, no bytes),
whatever the other arguments are. -/
theorem c7_zero_length_dropped (w h x y breadth radius strokeWidth sc fc : Nat) :
    drawShape w h x y 0 breadth radius strokeWidth sc fc = [] :=
  drawShape_eq_nil (by simp [isDrawRectF])

/-- C8: fillScreen and drawShape leave the bus transaction open — each trace
contains exactly one SPI_START (opened inside setAddressWindow) and zero
SPI_END events before control returns, contradicting the claimed pairing. -/
theorem c8_transaction_left_open :
    (fillScreen 240 320 0).countP isStart = 1 ∧
    (fillScreen 240 320 0).countP isStop = 0 ∧
    (drawShape 240 320 10 10 50 50 0 0 0 63488).countP isStart = 1 ∧
    (drawShape 240 320 10 10 50 50 0 0 0 63488).countP isStop = 0 := by
  have hf : fillScreen 240 320 0 =
      setAddressWindow 0 0 240 64 ++ writeData16 0 (241 * 64) := by
    simp [fillScreen, setScreenData]
  rw [hf, c3_eval 0]
  simp [List.countP_append, setAddressWindow, writeCommand, writeData16,
    wd16Loop_countP_isStart, wd16Loop_countP_isStop, List.countP_cons,
    isStart, isStop]

/-- C9 counterexample: at top = 65535, bottom = 1 the true sum 65536 exceeds
the height 320, yet the 16-bit sum wraps to 0 and the
vertical-scroll-definition command is sent (with middle = 320). -/
theorem c9_counterexample :
    320 < 65535 + 1 ∧
    setScrollMargins 65535 1 =
      [Ev.start, Ev.cmd 51, Ev.dat 255, Ev.dat 255, Ev.dat 1, Ev.dat 64,
       Ev.dat 0, Ev.dat 1, Ev.stop] := by decide

/-- C9 amended: setScrollMargins(top,bottom) sends its command if and only if
the wrapping 16-bit sum (top+bottom) mod 65536 is at most the height, and
then encodes the middle region as height - ((top+bottom) mod 65536); for all
margins whose true sum does not overflow 16 bits this is exactly the claimed
top+bottom <= height behaviour. -/
theorem c9_amended (top bottom : Nat) (ht : top < 65536) (hb : bottom < 65536) :
    (setScrollMargins top bottom ≠ [] ↔ (top + bottom) % 65536 ≤ 320) ∧
    ((top + bottom) % 65536 ≤ 320 →
      setScrollMargins top bottom =
        [Ev.start, Ev.cmd ILI9341_VSCRDEF,
         Ev.dat (top / 256), Ev.dat (top % 256),
         Ev.dat ((320 - (top + bottom) % 65536) / 256),
         Ev.dat ((320 - (top + bottom) % 65536) % 256),
         Ev.dat (bottom / 256), Ev.dat (bottom % 256), Ev.stop]) := by
  have hts : top % 65536 = top := Nat.mod_eq_of_lt ht
  have hbs : bottom % 65536 = bottom := Nat.mod_eq_of_lt hb
  have e1 : top / 256 % 256 = top / 256 := Nat.mod_eq_of_lt (by omega)
  have e2 : bottom / 256 % 256 = bottom / 256 := Nat.mod_eq_of_lt (by omega)
  by_cases hcond : (top + bottom) % 65536 ≤ 320
  · have e3 : (320 - (top + bottom) % 65536) / 256 % 256 =
        (320 - (top + bottom) % 65536) / 256 := Nat.mod_eq_of_lt (by omega)
    have e4 : (320 - (top + bottom) % 65536) % 256 % 256 =
        (320 - (top + bottom) % 65536) % 256 := Nat.mod_eq_of_lt (by omega)
    refine ⟨?_, fun _ => ?_⟩
    · simp [setScrollMargins, hts, hbs, TFT_HEIGHT, hcond, sendCommand]
    · simp [setScrollMargins, hts, hbs, TFT_HEIGHT, hcond, sendCommand,
        ILI9341_VSCRDEF, e1, e2, e3, e4]
      refine ⟨?_, ?_⟩ <;> (simp only [sub16]; omega)
  · refine ⟨?_, fun hc => absurd hc hcond⟩
    simp [setScrollMargins, hts, hbs, TFT_HEIGHT, hcond]

/-- Witness for C9 amended at top = 10, bottom = 20 (middle = 290). -/
theorem c9_amended_witness :
    setScrollMargins 10 20 =
      [Ev.start, Ev.cmd ILI9341_VSCRDEF, Ev.dat 0, Ev.dat 10, Ev.dat 1, Ev.dat 34,
       Ev.dat 0, Ev.dat 20, Ev.stop] :=
  (c9_amended 10 20 (by norm_num) (by norm_num)).2 (by norm_num)

/-- C10: the row-count parameter of setScreenData is an 8-bit value (every
call behaves as its row count reduced mod 256), and fillScreen on a 240x320
display programs an address window whose end row is 320 mod 256 = 64 and
writes only 241 * (320 mod 256) pixels, i.e. 64 rows of pixels. -/
theorem c10_depth_is_uint8 (xPos yPos xFillPx depth col c : Nat) :
    setScreenData xPos yPos xFillPx depth col =
      setScreenData xPos yPos xFillPx (depth % 256) col ∧
    fillScreen 240 320 c =
      setAddressWindow 0 0 240 (320 % 256) ++ writeData16 c (241 * (320 % 256)) := by
  constructor
  · have h : depth % 256 % 256 = depth % 256 := by omega
    simp [setScreenData, h]
  · simp [fillScreen, setScreenData]
